import Mathlib

/-!
Shallow embedding of the sync client's conflict-resolution engine
(client/recordUtil.js) and of its object-storage transport helpers
(client/requestUtil.js), together with theorems checking the
natural-language specification against this embedding.

Modelling conventions:
* A JS object field that may be absent is an Option; none stands for
  "property absent or undefined".
* JS truthiness of a string-valued field: some s with s nonempty.
* JS numbers appearing as integer timestamps / ids are Int;
  the siteSetting zoomLevel is Rat.
* Date.now() is impure; each call site gets its own explicit argument
  (now1 for the first read in a call, now2 for the second), with the
  real-clock constraint now1 <= now2 left to the theorems that need it.
* throw is Except.error; console.log output is collected in a logs list.
* Object.assign(record, delta) mutates the record object in place and
  returns it; we model the post-state of the mutated argument explicitly.
-/

set_option maxHeartbeats 1000000

set_option synthInstance.maxHeartbeats 400000

namespace SyncModel

/-- The proto.actions enum (client/constants/proto, values CREATE, UPDATE,
DELETE of the wire schema). -/
inductive Action where
  | CREATE : Action
  | UPDATE : Action
  | DELETE : Action
deriving DecidableEq

/-- Numeric rendering of a proto action as it appears in template-literal
log messages (the proto enum values are 0, 1, 2 in schema order). -/
def actionCode : Action → String
  | Action.CREATE => "0"
  | Action.UPDATE => "1"
  | Action.DELETE => "2"

/-- Site payload: {location, title, customTitle, lastAccessedTime,
creationTime}; timestamps are integer milliseconds. -/
structure Site where
  location : Option String
  title : Option String
  customTitle : Option String
  lastAccessedTime : Option Int
  creationTime : Option Int
deriving DecidableEq

/-- Bookmark payload: {site, isFolder, folderId, parentFolderId}. -/
structure Bookmark where
  site : Option Site
  isFolder : Option Bool
  folderId : Option Int
  parentFolderId : Option Int
deriving DecidableEq

/-- SiteSetting payload; hostPattern is the identity key. -/
structure SiteSetting where
  hostPattern : Option String
  fingerprintingProtection : Option Bool
  shieldsUp : Option Bool
  noScript : Option Bool
  adControl : Option Int
  cookieControl : Option Int
  httpsEverywhere : Option Bool
  safeBrowsing : Option Bool
  ledgerPayments : Option Bool
  ledgerPaymentsShown : Option Bool
  zoomLevel : Option Rat
deriving DecidableEq

/-- Device payload: {name}. -/
structure Device where
  name : Option String
deriving DecidableEq

/-- A sync record as a plain JS object: action, deviceId, objectId,
objectData discriminator string, and the four possible payload fields
(each possibly absent, since a JS object does not enforce the
one-populated-field invariant). -/
structure Record where
  action : Action
  deviceId : List Nat
  objectId : String
  objectData : String
  bookmark : Option Bookmark
  historySite : Option Site
  siteSetting : Option SiteSetting
  device : Option Device
deriving DecidableEq

/-- A payload value as fetched by the dynamic access record[name]. -/
inductive PayloadVal where
  | bm : Bookmark → PayloadVal
  | hs : Site → PayloadVal
  | ss : SiteSetting → PayloadVal
  | dv : Device → PayloadVal
deriving DecidableEq

/-- Dynamic field access record[name] restricted to the four payload
fields; any other name yields undefined (none). -/
def getField (r : Record) (name : String) : Option PayloadVal :=
  if name = "bookmark" then r.bookmark.map PayloadVal.bm
  else if name = "historySite" then r.historySite.map PayloadVal.hs
  else if name = "siteSetting" then r.siteSetting.map PayloadVal.ss
  else if name = "device" then r.device.map PayloadVal.dv
  else none

/-- External primitive lib/valueEquals: deep structural equality of two
decoded payload trees (undefined equals undefined). -/
def valueEquals (a b : Option PayloadVal) : Bool :=
  decide (a = b)

/-- JS truthiness of a possibly-absent string field. -/
def truthyStr : Option String → Bool
  | some s => s ≠ ""
  | none => false

/-- The JS condition folderId && folderId > 0: the field is present and
its value is positive (a present 0 is falsy, a negative value fails the
comparison). -/
def posFolderId : Option Int → Bool
  | some n => 0 < n
  | none => false

/-- Site defaulting createSitePropsFromUpdateSite: Object.assign of the
input site over defaultProps. Fields present on the input win; a missing
title becomes "", a missing customTitle becomes site.location, a missing
lastAccessedTime takes the first Date.now() read (now1) and a missing
creationTime the second (now2) — the source calls Date.now() once per
field. -/
def createSitePropsFromUpdateSite (now1 now2 : Int) (site : Site) : Site :=
  { location := site.location
    title := match site.title with
      | some t => some t
      | none => some ""
    customTitle := match site.customTitle with
      | some c => some c
      | none => site.location
    lastAccessedTime := match site.lastAccessedTime with
      | some t => some t
      | none => some now1
    creationTime := match site.creationTime with
      | some t => some t
      | none => some now2 }

/-- Validity predicate of the bookmark synthesis path:
record.bookmark.site && (site.location ||
(site.customTitle && folderId && folderId > 0)), read on the bookmark
payload (the caller guards that the payload is present). -/
def bookmarkValid (bm : Bookmark) : Bool :=
  match bm.site with
  | some site =>
      truthyStr site.location ||
        (truthyStr site.customTitle && posFolderId bm.folderId)
  | none => false

/-- Mapping of the bookmark synthesis path. Folder branch:
Object.assign({isFolder: true}, bookmark) — the default isFolder is
overridden by an isFolder already on the update, and no site defaulting
happens. Page branch: Object.assign({}, {isFolder: false}, bookmark,
{site}) with the defaulted site. bm.site is present in every input that
passes bookmarkValid, which guards all calls; on that domain the map
option below agrees with the source (which reads bookmark.site
unconditionally in the page branch). -/
def mapUpdateToCreateBookmark (now1 now2 : Int) (bm : Bookmark) : Bookmark :=
  if posFolderId bm.folderId then
    { bm with isFolder := some (bm.isFolder.getD true) }
  else
    { bm with
      isFolder := some (bm.isFolder.getD false)
      site := bm.site.map (createSitePropsFromUpdateSite now1 now2) }

/-- The closure produced by CreateFromUpdate(type, isValidRecord,
mapUpdateToCreate): throw when the payload named by the type is absent,
null when invalid, otherwise Object.assign(record, {action: CREATE,
[type]: mapped payload}) — which mutates record and returns it. -/
def CreateFromUpdate {α : Type} (tyName : String) (get : Record → Option α)
    (set : Record → α → Record) (isValidRecord : Record → Bool)
    (mapUpdateToCreate : α → α) (r : Record) : Except String (Option Record) :=
  match get r with
  | none => Except.error ("Record missing " ++ tyName)
  | some payload =>
      if isValidRecord r then
        Except.ok (some { set r (mapUpdateToCreate payload) with
                            action := Action.CREATE })
      else
        Except.ok none

/-- createFromUpdateBookmark. -/
def createFromUpdateBookmark (now1 now2 : Int) (r : Record) :
    Except String (Option Record) :=
  CreateFromUpdate "bookmark" Record.bookmark
    (fun r b => { r with bookmark := some b })
    (fun r => match r.bookmark with
      | some bm => bookmarkValid bm
      | none => false)
    (mapUpdateToCreateBookmark now1 now2) r

/-- createFromUpdateHistorySite: valid iff historySite.location is truthy,
mapping is Site defaulting. -/
def createFromUpdateHistorySite (now1 now2 : Int) (r : Record) :
    Except String (Option Record) :=
  CreateFromUpdate "historySite" Record.historySite
    (fun r s => { r with historySite := some s })
    (fun r => match r.historySite with
      | some s => truthyStr s.location
      | none => false)
    (createSitePropsFromUpdateSite now1 now2) r

/-- createFromUpdateSiteSetting: valid iff siteSetting.hostPattern is
truthy, mapping is the identity. -/
def createFromUpdateSiteSetting (r : Record) :
    Except String (Option Record) :=
  CreateFromUpdate "siteSetting" Record.siteSetting
    (fun r s => { r with siteSetting := some s })
    (fun r => match r.siteSetting with
      | some s => truthyStr s.hostPattern
      | none => false)
    id r

/-- recordUtil.createFromUpdate: guard that the record is an UPDATE,
dispatch on the objectData string; unknown discriminators log a warning
and yield null. The pair carries the console.log output. -/
def createFromUpdateRun (now1 now2 : Int) (r : Record) :
    Except String (Option Record) × List String :=
  if r.action ≠ Action.UPDATE then
    (Except.error "Missing UPDATE syncRecord.", [])
  else if r.objectData = "bookmark" then
    (createFromUpdateBookmark now1 now2 r, [])
  else if r.objectData = "historySite" then
    (createFromUpdateHistorySite now1 now2 r, [])
  else if r.objectData = "siteSetting" then
    (createFromUpdateSiteSetting r, [])
  else
    (Except.ok none, ["Warning: invalid objectData " ++ r.objectData])

/-- The nullIgnore console.log line of resolve. -/
def nullIgnoreLog (r : Record) : String :=
  "Ignoring " ++ actionCode r.action ++ " of object " ++ r.objectId ++ "."

/-- Result of one resolve call: its return-or-throw value, the state of
the record object passed in after the call (Object.assign in the
synthesizer mutates it in place), and the console.log output. The
existingObject argument is only ever read. -/
structure ResolveEffect where
  result : Except String (Option Record)
  post : Record
  logs : List String

/-- recordUtil.resolve(record, existingObject). The missing-record guard
and the unknown-action throw of the source are unreachable here because a
Record is always supplied and the Action type is exact. On the
UPDATE/no-existing path, createFromUpdate(record) || nullIgnore() turns a
null synthesis into null with an extra log line; a successful synthesis
has mutated the record in place (post is the synthesized record, the very
object that is returned). -/
def resolveRun (now1 now2 : Int) (r : Record) (existingObject : Option Record) :
    ResolveEffect :=
  match r.action with
  | Action.CREATE =>
      match existingObject with
      | some _ => ⟨Except.ok none, r, [nullIgnoreLog r]⟩
      | none => ⟨Except.ok (some r), r, []⟩
  | Action.UPDATE =>
      match existingObject with
      | some ex =>
          if valueEquals (getField r r.objectData)
              (getField ex ex.objectData) then
            ⟨Except.ok none, r, [nullIgnoreLog r]⟩
          else
            ⟨Except.ok (some r), r, []⟩
      | none =>
          match createFromUpdateRun now1 now2 r with
          | (Except.error e, ls) => ⟨Except.error e, r, ls⟩
          | (Except.ok none, ls) =>
              ⟨Except.ok none, r, ls ++ [nullIgnoreLog r]⟩
          | (Except.ok (some r2), ls) => ⟨Except.ok (some r2), r2, ls⟩
  | Action.DELETE =>
      match existingObject with
      | some _ => ⟨Except.ok (some r), r, []⟩
      | none => ⟨Except.ok none, r, [nullIgnoreLog r]⟩

/-- A JS Error as the retry logic sees it: only its message text is
consulted (after checkFetchStatus / response-body appending, which the
retry path performs before classification). -/
structure Err where
  message : String
deriving DecidableEq

/-- The EXPIRED_CREDENTIAL_ERRORS regex list; both patterns are literal
text, matched unanchored. -/
def EXPIRED_CREDENTIAL_ERRORS : List String :=
  ["The provided token has expired.",
   "Invalid according to Policy: Policy expired."]

/-- isExpiredCredentialError: the message matches (contains) one of the
known expired-credential signatures. -/
def isExpiredCredentialError (error : Err) : Bool :=
  EXPIRED_CREDENTIAL_ERRORS.any
    (fun m => decide (List.IsInfix m.toList error.message.toList))

/-- Observable outcome of one withRetry call: the settled value or the
thrown/rejected error (error none is JS throw undefined, reachable only
when the entry previousError is already none with retries below zero),
the number of times the wrapped operation ran, and the number of
credential refreshes performed. -/
structure RetryResult (α : Type) where
  outcome : Except (Option Err) α
  calls : Nat
  refreshes : Nat

/-- Recursion core of withRetry on the fuel retries + 1: fuel 0 is the
retries below zero case, which throws previousError before anything else;
a previous non-credential error is rethrown without another attempt; a
previous credential error triggers a refresh and then the attempt; each
failed attempt recurses with the budget decremented and the just-caught
error as previousError. -/
def withRetryF {α : Type} (myFun : Nat → Except Err α) :
    Nat → Nat → Option Err → RetryResult α
  | _, 0, previousError =>
      { outcome := Except.error previousError, calls := 0, refreshes := 0 }
  | k, fuel1 + 1, some e =>
      if isExpiredCredentialError e then
        match myFun k with
        | Except.ok v =>
            { outcome := Except.ok v, calls := 1, refreshes := 1 }
        | Except.error err =>
            let rest := withRetryF myFun (k + 1) fuel1 (some err)
            { outcome := rest.outcome, calls := rest.calls + 1,
              refreshes := rest.refreshes + 1 }
      else
        { outcome := Except.error (some e), calls := 0, refreshes := 0 }
  | k, fuel1 + 1, none =>
      match myFun k with
      | Except.ok v =>
          { outcome := Except.ok v, calls := 1, refreshes := 0 }
      | Except.error err =>
          let rest := withRetryF myFun (k + 1) fuel1 (some err)
          { outcome := rest.outcome, calls := rest.calls + 1,
            refreshes := rest.refreshes }

/-- RequestUtil.withRetry(myFun, retries, previousError). The wrapped
operation is modelled as the sequence of outcomes of its successive
invocations (myFun k is the k-th call); credential refresh is modelled as
always succeeding, counted in refreshes (the source leaves its promise
unhandled on failure). The source recursion bottoms out when the integer
retries has gone below zero, i.e. after retries + 1 levels, which is the
fuel of withRetryF; the external entry point uses the default budget
retries = 1 with no previousError. -/
def withRetry {α : Type} (myFun : Nat → Except Err α) (k : Nat)
    (retries : Int) (previousError : Option Err) : RetryResult α :=
  withRetryF myFun k (retries + 1).toNat previousError

/-- A value appended to a FormData: either a string field or a byte
payload. -/
inductive FormValue where
  | str : String → FormValue
  | bytes : List Nat → FormValue
deriving DecidableEq

/-- RequestUtil.prototype.s3PostFormData(objectKey): a FormData as the
ordered list of its appended (name, value) pairs — first the key field,
then every field of the credential bundle's postData, then a file field
holding an empty byte array (new Uint8Array([])). -/
def s3PostFormData (postData : List (String × String)) (objectKey : String) :
    List (String × FormValue) :=
  ("key", FormValue.str objectKey) ::
    (postData.map (fun p => (p.1, FormValue.str p.2)) ++
      [("file", FormValue.bytes [])])

/-- Byte chunks of size at most size (the i-th chunk is the i-th size-wide
slice of the data), in order; empty data has no chunks. -/
def chunkBytes (size : Nat) (data : List Nat) : List (List Nat) :=
  (List.range ((data.length + size - 1) / size)).map
    (fun i => (data.drop (i * size)).take size)

/-- Modelled from the spec: lib/s3Helper.encodeDataToS3KeyArray is not
under src (only its caller put is). Per the StorageKey description and
the list operation, the record bytes are encoded into the key string
itself under the timestamped prefix string pfx, split across one or more
chunk keys sized to the store's key-length limit, each key carrying a
chunk suffix; list later recovers the payload by parsing the key. The
encoding of a chunk is modelled as its decimal byte values joined by
periods, with a chunk size of 1024 bytes. -/
def encodeDataToS3KeyArray (pfx : String) (data : List Nat) : List String :=
  (chunkBytes 1024 data).enum.map
    (fun p => pfx ++ toString p.1 ++ "/" ++
      String.intercalate "." (p.2.map toString))

/-- RequestUtil.prototype.currentRecordPrefix(category): the timestamped
key base {apiVersion}/{userId}/{category}/{getTime()}/ of one put call
(getTime is Date.now() in whole seconds, passed here as nowSec). -/
def currentRecordKeyBase (apiVersion userId category : String)
    (nowSec : Nat) : String :=
  apiVersion ++ "/" ++ userId ++ "/" ++ category ++ "/" ++
    toString nowSec ++ "/"

/-- RequestUtil.prototype.put(category, record): one upload attempt posts,
for every chunk key produced from the record bytes, the form
s3PostFormData(key) to the store endpoint (the keys are computed once,
outside the retry wrapper). The result lists the forms posted, in chunk
order. -/
def put (apiVersion userId : String) (postData : List (String × String))
    (nowSec : Nat) (category : String) (record : List Nat) :
    List (List (String × FormValue)) :=
  let s3Keys := encodeDataToS3KeyArray
    (currentRecordKeyBase apiVersion userId category nowSec) record
  s3Keys.map (fun key => s3PostFormData postData key)

/-- A site carrying every field absent. -/
def emptySite : Site :=
  { location := none, title := none, customTitle := none,
    lastAccessedTime := none, creationTime := none }

/-- A site carrying only a location. -/
def siteJisho : Site :=
  { emptySite with location := some "https://jisho.org" }

/-- An UPDATE record with objectData device and no payload at all. -/
def rDev : Record :=
  { action := Action.UPDATE, deviceId := [0], objectId := "obj-dev",
    objectData := "device", bookmark := none, historySite := none,
    siteSetting := none, device := none }

/-- An UPDATE historySite record carrying only a location. -/
def rHsU : Record :=
  { action := Action.UPDATE, deviceId := [0], objectId := "obj-hs",
    objectData := "historySite", bookmark := none,
    historySite := some siteJisho, siteSetting := none, device := none }

/-- A CREATE historySite record with a different site payload, used as an
existing object. -/
def exHsDiff : Record :=
  { action := Action.CREATE, deviceId := [1], objectId := "obj-hs",
    objectData := "historySite",
    historySite := some { emptySite with customTitle := some "pyramid" },
    bookmark := none, siteSetting := none, device := none }

/-- An update bookmark payload with a positive folderId, a customTitle on
its site and an explicit isFolder false. -/
def bmFolderFalse : Bookmark :=
  { site := some { emptySite with customTitle := some "sweet title" },
    isFolder := some false, folderId := some 1, parentFolderId := none }

/-- An UPDATE bookmark record around bmFolderFalse. -/
def rBmFolderFalse : Record :=
  { action := Action.UPDATE, deviceId := [0], objectId := "obj-bm",
    objectData := "bookmark", bookmark := some bmFolderFalse,
    historySite := none, siteSetting := none, device := none }

/-- The record rBmFolderFalse synthesizes to: same object with action
CREATE and the mapped bookmark payload, whose isFolder stays false. -/
def rBmOut : Record :=
  { rBmFolderFalse with
    action := Action.CREATE
    bookmark := some { bmFolderFalse with isFolder := some false } }

/-- An UPDATE bookmark record whose bookmark payload is absent. -/
def rBmMissing : Record :=
  { action := Action.UPDATE, deviceId := [0], objectId := "obj-bm2",
    objectData := "bookmark", bookmark := none, historySite := none,
    siteSetting := none, device := none }

/-- A CREATE bookmark record used as incoming record and as existing
object. -/
def rCreateBm : Record :=
  { action := Action.CREATE, deviceId := [0], objectId := "obj-bm3",
    objectData := "bookmark",
    bookmark := some { site := some siteJisho, isFolder := some false,
                       folderId := none, parentFolderId := none },
    historySite := none, siteSetting := none, device := none }

/-- A transient network failure, not in the expired-credential class. -/
def netErr : Err := { message := "Failed to fetch" }

/-- An operation that always fails with the network error. -/
def opNetAll (_k : Nat) : Except Err Unit := Except.error netErr

/-- An operation whose first call fails with the network error and whose
later calls would succeed. -/
def opNetOnce : Nat → Except Err Unit
  | 0 => Except.error netErr
  | _ + 1 => Except.ok ()

/-- The first expired-credential error signature. -/
def credErr1 : Err := { message := "The provided token has expired." }

/-- The second expired-credential error signature. -/
def credErr2 : Err :=
  { message := "Invalid according to Policy: Policy expired." }

/-- An operation failing first with credErr1 and then with credErr2. -/
def opTwoFails : Nat → Except Err Unit
  | 0 => Except.error credErr1
  | _ + 1 => Except.error credErr2

/-- The single form put posts for a one-byte record in the witness
scenario. -/
def cform : List (String × FormValue) :=
  s3PostFormData [("policy", "pol")] "0/userX/BOOKMARKS/100/0/42"

/-- Unfolding of resolveRun on a CREATE record. -/
theorem resolveRun_create (now1 now2 : Int) (r : Record)
    (ex : Option Record) (h : r.action = Action.CREATE) :
    resolveRun now1 now2 r ex =
      match ex with
      | some _ => ⟨Except.ok none, r, [nullIgnoreLog r]⟩
      | none => ⟨Except.ok (some r), r, []⟩ := by
  unfold resolveRun
  rw [h]

/-- Unfolding of resolveRun on a DELETE record. -/
theorem resolveRun_delete (now1 now2 : Int) (r : Record)
    (ex : Option Record) (h : r.action = Action.DELETE) :
    resolveRun now1 now2 r ex =
      match ex with
      | some _ => ⟨Except.ok (some r), r, []⟩
      | none => ⟨Except.ok none, r, [nullIgnoreLog r]⟩ := by
  unfold resolveRun
  rw [h]

/-- Unfolding of resolveRun on an UPDATE record with an existing object. -/
theorem resolveRun_update_some (now1 now2 : Int) (r ex : Record)
    (h : r.action = Action.UPDATE) :
    resolveRun now1 now2 r (some ex) =
      if valueEquals (getField r r.objectData) (getField ex ex.objectData)
      then ⟨Except.ok none, r, [nullIgnoreLog r]⟩
      else ⟨Except.ok (some r), r, []⟩ := by
  unfold resolveRun
  rw [h]

/-- Unfolding of resolveRun on an UPDATE record without an existing
object. -/
theorem resolveRun_update_none (now1 now2 : Int) (r : Record)
    (h : r.action = Action.UPDATE) :
    resolveRun now1 now2 r none =
      match createFromUpdateRun now1 now2 r with
      | (Except.error e, ls) => ⟨Except.error e, r, ls⟩
      | (Except.ok none, ls) => ⟨Except.ok none, r, ls ++ [nullIgnoreLog r]⟩
      | (Except.ok (some r2), ls) => ⟨Except.ok (some r2), r2, ls⟩ := by
  unfold resolveRun
  rw [h]

/-- C1: for every record with action UPDATE and an existing object
present, resolve returns null iff the payload of the record under its
objectData deep-equals (valueEquals) the payload of the existing object
under its objectData; otherwise it returns the input record itself,
unchanged (its post-state equals the input). -/
theorem claim1_update_existing (now1 now2 : Int) (r ex : Record)
    (hU : r.action = Action.UPDATE) :
    ((resolveRun now1 now2 r (some ex)).result = Except.ok none ↔
      valueEquals (getField r r.objectData) (getField ex ex.objectData)
        = true) ∧
    (valueEquals (getField r r.objectData) (getField ex ex.objectData)
        = false →
      (resolveRun now1 now2 r (some ex)).result = Except.ok (some r) ∧
      (resolveRun now1 now2 r (some ex)).post = r) := by
  rw [resolveRun_update_some now1 now2 r ex hU]
  by_cases hv : valueEquals (getField r r.objectData)
      (getField ex ex.objectData) = true
  · simp [hv]
  · simp only [Bool.not_eq_true] at hv
    simp [hv]

/-- C1 witness at a concrete UPDATE record and a differing existing
object. -/
theorem claim1_update_existing_w :
    (resolveRun 0 0 rHsU (some exHsDiff)).result = Except.ok (some rHsU) :=
  (((claim1_update_existing 0 0 rHsU exHsDiff rfl).2) (by decide)).1

/-- C2: for every record with action CREATE, resolve returns null when an
existing object is present and the input record itself when absent; for
every record with action DELETE, resolve returns the input record itself
when an existing object is present and null when absent. -/
theorem claim2_create_delete (now1 now2 : Int) (r ex : Record) :
    (r.action = Action.CREATE →
      (resolveRun now1 now2 r (some ex)).result = Except.ok none ∧
      (resolveRun now1 now2 r none).result = Except.ok (some r)) ∧
    (r.action = Action.DELETE →
      (resolveRun now1 now2 r (some ex)).result = Except.ok (some r) ∧
      (resolveRun now1 now2 r none).result = Except.ok none) := by
  constructor
  · intro h
    constructor
    · rw [resolveRun_create now1 now2 r (some ex) h]
    · rw [resolveRun_create now1 now2 r none h]
  · intro h
    constructor
    · rw [resolveRun_delete now1 now2 r (some ex) h]
    · rw [resolveRun_delete now1 now2 r none h]

/-- C2 witness at a concrete CREATE record. -/
theorem claim2_create_delete_w :
    (resolveRun 0 0 rCreateBm (some rCreateBm)).result = Except.ok none ∧
    (resolveRun 0 0 rCreateBm none).result = Except.ok (some rCreateBm) :=
  (claim2_create_delete 0 0 rCreateBm rCreateBm).1 rfl

/-- C3: for every record with action UPDATE and no existing object,
resolve returns exactly what the synthesis dispatcher createFromUpdate
produced (null when synthesis yields nothing); and for a discriminator
outside bookmark, historySite and siteSetting (such as device), the
result is null — no exception — with a console diagnostic naming the
unrecognized objectData. -/
theorem claim3_update_synthesis (now1 now2 : Int) (r : Record)
    (hU : r.action = Action.UPDATE) :
    ((resolveRun now1 now2 r none).result =
      (createFromUpdateRun now1 now2 r).1) ∧
    (r.objectData ≠ "bookmark" → r.objectData ≠ "historySite" →
      r.objectData ≠ "siteSetting" →
      (resolveRun now1 now2 r none).result = Except.ok none ∧
      ("Warning: invalid objectData " ++ r.objectData) ∈
        (resolveRun now1 now2 r none).logs) := by
  rw [resolveRun_update_none now1 now2 r hU]
  constructor
  · rcases hcr : createFromUpdateRun now1 now2 r with ⟨res, ls⟩
    cases res with
    | error e => simp
    | ok o =>
        cases o with
        | none => simp
        | some r2 => simp
  · intro h1 h2 h3
    have hcr : createFromUpdateRun now1 now2 r =
        (Except.ok none, ["Warning: invalid objectData " ++ r.objectData]) := by
      unfold createFromUpdateRun
      simp [hU, h1, h2, h3]
    rw [hcr]
    simp

/-- C3 witness at the concrete device UPDATE record. -/
theorem claim3_update_synthesis_w :
    (resolveRun 0 0 rDev none).result = Except.ok none ∧
    ("Warning: invalid objectData " ++ rDev.objectData) ∈
      (resolveRun 0 0 rDev none).logs :=
  (claim3_update_synthesis 0 0 rDev rfl).2 (by decide) (by decide)
    (by decide)

/-- C10 counterexample: an UPDATE record whose objectData is device and
whose device payload is absent resolves (with no existing object) to
null rather than throwing a Record missing error. -/
theorem claim10_cex :
    (resolveRun 0 0 rDev none).result = Except.ok none ∧
    (resolveRun 0 0 rDev none).result ≠
      Except.error ("Record missing " ++ rDev.objectData) := by
  constructor
  · rfl
  · intro h
    rw [show (resolveRun 0 0 rDev none).result = Except.ok none from rfl]
      at h
    exact Except.noConfusion h

/-- C10 (amended): for every UPDATE record whose objectData is one of
bookmark, historySite or siteSetting and whose matching payload field is
absent, resolving with no existing object throws the error Record
missing followed by the type name — a structurally invalid payload of a
synthesizable type is fatal to the call, unlike a synthesis-validity
failure which yields null. -/
theorem claim10_missing_payload (now1 now2 : Int) (r : Record)
    (hU : r.action = Action.UPDATE)
    (h : (r.objectData = "bookmark" ∧ r.bookmark = none) ∨
      (r.objectData = "historySite" ∧ r.historySite = none) ∨
      (r.objectData = "siteSetting" ∧ r.siteSetting = none)) :
    (resolveRun now1 now2 r none).result =
      Except.error ("Record missing " ++ r.objectData) := by
  rw [resolveRun_update_none now1 now2 r hU]
  rcases h with ⟨h1, h2⟩ | ⟨h1, h2⟩ | ⟨h1, h2⟩ <;>
    · have hcr : createFromUpdateRun now1 now2 r =
          (Except.error ("Record missing " ++ r.objectData), []) := by
        unfold createFromUpdateRun
        unfold createFromUpdateBookmark createFromUpdateHistorySite
          createFromUpdateSiteSetting CreateFromUpdate
        simp [hU, h1, h2]
      rw [hcr]

/-- C10 witness at a concrete bookmark UPDATE record with an absent
bookmark payload. -/
theorem claim10_missing_payload_w :
    (resolveRun 0 0 rBmMissing none).result =
      Except.error ("Record missing " ++ rBmMissing.objectData) :=
  claim10_missing_payload 0 0 rBmMissing rfl (Or.inl ⟨rfl, rfl⟩)

/-- C4 counterexample: with the clock advancing between the two
Date.now() reads of one defaulting call (first read 0, second read 1), a
site missing both timestamps gets two different instants, contradicting
the claim that the same instant is used for both fields. -/
theorem claim4_cex :
    (createSitePropsFromUpdateSite 0 1 emptySite).lastAccessedTime
      = some 0 ∧
    (createSitePropsFromUpdateSite 0 1 emptySite).creationTime = some 1 ∧
    (createSitePropsFromUpdateSite 0 1 emptySite).lastAccessedTime ≠
      (createSitePropsFromUpdateSite 0 1 emptySite).creationTime := by
  refine ⟨rfl, rfl, ?_⟩
  decide

/-- C4 (amended): in Site defaulting, every field present on the input
site is preserved verbatim; a missing title becomes the empty string; a
missing customTitle becomes the site's location; a missing
lastAccessedTime takes the first of the two consecutive Date.now() reads
of the call and a missing creationTime the second — so when both
timestamps are missing they receive the same instant exactly when the
clock does not advance between the two reads. -/
theorem claim4_site_defaulting (now1 now2 : Int) (site : Site) :
    (createSitePropsFromUpdateSite now1 now2 site).location
      = site.location ∧
    (∀ v, site.title = some v →
      (createSitePropsFromUpdateSite now1 now2 site).title = some v) ∧
    (site.title = none →
      (createSitePropsFromUpdateSite now1 now2 site).title = some "") ∧
    (∀ v, site.customTitle = some v →
      (createSitePropsFromUpdateSite now1 now2 site).customTitle
        = some v) ∧
    (site.customTitle = none →
      (createSitePropsFromUpdateSite now1 now2 site).customTitle
        = site.location) ∧
    (∀ v, site.lastAccessedTime = some v →
      (createSitePropsFromUpdateSite now1 now2 site).lastAccessedTime
        = some v) ∧
    (site.lastAccessedTime = none →
      (createSitePropsFromUpdateSite now1 now2 site).lastAccessedTime
        = some now1) ∧
    (∀ v, site.creationTime = some v →
      (createSitePropsFromUpdateSite now1 now2 site).creationTime
        = some v) ∧
    (site.creationTime = none →
      (createSitePropsFromUpdateSite now1 now2 site).creationTime
        = some now2) ∧
    (site.lastAccessedTime = none → site.creationTime = none →
      ((createSitePropsFromUpdateSite now1 now2 site).lastAccessedTime =
        (createSitePropsFromUpdateSite now1 now2 site).creationTime ↔
        now1 = now2)) := by
  obtain ⟨loc, ti, ct, lat, crt⟩ := site
  refine ⟨rfl, ?_, ?_, ?_, ?_, ?_, ?_, ?_, ?_, ?_⟩
  · rintro v rfl
    rfl
  · rintro rfl
    rfl
  · rintro v rfl
    rfl
  · rintro rfl
    rfl
  · rintro v rfl
    rfl
  · rintro rfl
    rfl
  · rintro v rfl
    rfl
  · rintro rfl
    rfl
  · rintro rfl rfl
    simp [createSitePropsFromUpdateSite]

/-- C4 witness at a concrete location-only site and a frozen clock. -/
theorem claim4_site_defaulting_w :
    (createSitePropsFromUpdateSite 1480000000000 1480000000000
      siteJisho).title = some "" ∧
    (createSitePropsFromUpdateSite 1480000000000 1480000000000
      siteJisho).customTitle = some "https://jisho.org" := by
  have h := claim4_site_defaulting 1480000000000 1480000000000 siteJisho
  refine ⟨h.2.2.1 rfl, ?_⟩
  have hc := h.2.2.2.2.1 rfl
  rw [hc]
  rfl

/-- C5 counterexample: an update bookmark payload with folderId 1 and an
explicit isFolder false synthesizes successfully, but the synthesized
payload keeps isFolder false — Object.assign({isFolder: true}, bookmark)
lets the update's own isFolder override the folder default, so the claim
that the payload has isFolder true whenever folderId is positive fails. -/
theorem claim5_cex :
    (createFromUpdateRun 0 0 rBmFolderFalse).1 =
      Except.ok (some rBmOut) ∧
    posFolderId bmFolderFalse.folderId = true ∧
    rBmOut.bookmark ≠
      some { bmFolderFalse with isFolder := some true } := by
  refine ⟨rfl, rfl, ?_⟩
  decide

/-- C5 (amended): bookmark synthesis from an UPDATE record succeeds
(returns a CREATE record rather than null) iff the bookmark's site is
present and its location is truthy, or its site's customTitle is truthy
and its folderId is positive. When folderId is positive the synthesized
payload's isFolder defaults to true only if the update carries no
isFolder of its own (an explicit isFolder is passed through), all other
bookmark fields pass through unchanged and no Site defaulting is
applied; otherwise isFolder likewise defaults to false, Site defaulting
is applied to the bookmark's site, and the other fields pass through. -/
theorem claim5_bookmark_synthesis (now1 now2 : Int) (r : Record)
    (bm : Bookmark) (hU : r.action = Action.UPDATE)
    (hD : r.objectData = "bookmark") (hB : r.bookmark = some bm) :
    ((createFromUpdateRun now1 now2 r).1 = Except.ok none ↔
      bookmarkValid bm = false) ∧
    (bookmarkValid bm = true →
      (createFromUpdateRun now1 now2 r).1 =
        Except.ok (some { r with
          action := Action.CREATE
          bookmark := some (mapUpdateToCreateBookmark now1 now2 bm) })) ∧
    (bookmarkValid bm = true ↔
      (∃ s, bm.site = some s ∧ (truthyStr s.location = true ∨
        (truthyStr s.customTitle = true ∧
          posFolderId bm.folderId = true)))) ∧
    (posFolderId bm.folderId = true →
      (mapUpdateToCreateBookmark now1 now2 bm).isFolder
          = some (bm.isFolder.getD true) ∧
      (mapUpdateToCreateBookmark now1 now2 bm).site = bm.site ∧
      (mapUpdateToCreateBookmark now1 now2 bm).folderId = bm.folderId ∧
      (mapUpdateToCreateBookmark now1 now2 bm).parentFolderId
          = bm.parentFolderId) ∧
    (posFolderId bm.folderId = false →
      (mapUpdateToCreateBookmark now1 now2 bm).isFolder
          = some (bm.isFolder.getD false) ∧
      (mapUpdateToCreateBookmark now1 now2 bm).site =
        bm.site.map (createSitePropsFromUpdateSite now1 now2) ∧
      (mapUpdateToCreateBookmark now1 now2 bm).folderId = bm.folderId ∧
      (mapUpdateToCreateBookmark now1 now2 bm).parentFolderId
          = bm.parentFolderId) := by
  have hrun : createFromUpdateRun now1 now2 r =
      (createFromUpdateBookmark now1 now2 r, []) := by
    unfold createFromUpdateRun
    simp [hU, hD]
  have hcb : createFromUpdateBookmark now1 now2 r =
      (if bookmarkValid bm then
        Except.ok (some { r with
          action := Action.CREATE
          bookmark := some (mapUpdateToCreateBookmark now1 now2 bm) })
      else Except.ok none) := by
    unfold createFromUpdateBookmark CreateFromUpdate
    simp [hB]
  refine ⟨?_, ?_, ?_, ?_, ?_⟩
  · rw [hrun]
    by_cases hv : bookmarkValid bm = true
    · rw [hcb]
      simp [hv]
    · simp only [Bool.not_eq_true] at hv
      rw [hcb]
      simp [hv]
  · intro hv
    rw [hrun]
    rw [hcb]
    simp [hv]
  · unfold bookmarkValid
    cases hs : bm.site with
    | none => simp
    | some s =>
        simp [Bool.or_eq_true, Bool.and_eq_true]
  · intro hp
    unfold mapUpdateToCreateBookmark
    rw [hp]
    simp
  · intro hp
    unfold mapUpdateToCreateBookmark
    rw [hp]
    simp

/-- C5 witness: the concrete folder-style update bookmark synthesizes to
a CREATE record carrying its mapped payload. -/
theorem claim5_bookmark_synthesis_w :
    (createFromUpdateRun 7 9 rBmFolderFalse).1 =
      Except.ok (some { rBmFolderFalse with
        action := Action.CREATE
        bookmark := some (mapUpdateToCreateBookmark 7 9 bmFolderFalse) }) :=
  (claim5_bookmark_synthesis 7 9 rBmFolderFalse bmFolderFalse rfl rfl
    rfl).2.1 (by decide)

/-- C6 counterexample: resolving the concrete historySite UPDATE record
with no existing object mutates the record object in place — after the
call its action is CREATE, so the post-state differs from the input. -/
theorem claim6_cex :
    (resolveRun 5 5 rHsU none).post ≠ rHsU ∧
    (resolveRun 5 5 rHsU none).post.action = Action.CREATE ∧
    rHsU.action = Action.UPDATE := by
  refine ⟨?_, rfl, rfl⟩
  decide

/-- C6 (amended): resolve never mutates the existing object (it is only
read), and never mutates the incoming record except on the successful
UPDATE-without-existing-object synthesis path: whenever the result is a
record, that record is exactly the post-state of the input object (the
input was mutated in place into it and returned), and whenever the
result is null or an error the input record is unchanged. -/
theorem claim6_mutation (now1 now2 : Int) (r : Record)
    (ex : Option Record) :
    (¬ (r.action = Action.UPDATE ∧ ex = none) →
      (resolveRun now1 now2 r ex).post = r) ∧
    (∀ r2, (resolveRun now1 now2 r ex).result = Except.ok (some r2) →
      (resolveRun now1 now2 r ex).post = r2) ∧
    ((∀ r2, (resolveRun now1 now2 r ex).result ≠ Except.ok (some r2)) →
      (resolveRun now1 now2 r ex).post = r) := by
  obtain ⟨a, dev, oid, od, bmk, hsv, ssv, dvv⟩ := r
  cases a with
  | CREATE =>
      cases ex with
      | none => exact ⟨fun _ => rfl, fun r2 h => by
          simp [resolveRun] at h
          simp [resolveRun, h], fun _ => rfl⟩
      | some e => exact ⟨fun _ => rfl, fun r2 h => by
          simp [resolveRun] at h, fun _ => rfl⟩
  | DELETE =>
      cases ex with
      | none => exact ⟨fun _ => rfl, fun r2 h => by
          simp [resolveRun] at h, fun _ => rfl⟩
      | some e => exact ⟨fun _ => rfl, fun r2 h => by
          simp [resolveRun] at h
          simp [resolveRun, h], fun _ => rfl⟩
  | UPDATE =>
      cases ex with
      | some e =>
          refine ⟨fun _ => ?_, fun r2 h => ?_, fun _ => ?_⟩
          · rw [resolveRun_update_some now1 now2 _ e rfl]
            split <;> rfl
          · rw [resolveRun_update_some now1 now2 _ e rfl] at h ⊢
            revert h
            split
            · intro h
              simp at h
            · intro h
              simp only [ResolveEffect.result, Except.ok.injEq,
                Option.some.injEq] at h
              simp only [ResolveEffect.post]
              exact h
          · rw [resolveRun_update_some now1 now2 _ e rfl]
            split <;> rfl
      | none =>
          rw [resolveRun_update_none now1 now2 _ rfl]
          rcases hcr : createFromUpdateRun now1 now2
              ⟨Action.UPDATE, dev, oid, od, bmk, hsv, ssv, dvv⟩
            with ⟨res, ls⟩
          cases res with
          | error e =>
              exact ⟨fun h => by simp at h, fun r2 h => by
                simp at h, fun _ => rfl⟩
          | ok o =>
              cases o with
              | none =>
                  exact ⟨fun h => by simp at h, fun r2 h => by
                    simp at h, fun _ => rfl⟩
              | some r2 =>
                  refine ⟨fun h => absurd ⟨rfl, rfl⟩ h, fun r3 h => ?_,
                    fun h => absurd rfl (h r2)⟩
                  simp only [ResolveEffect.result, Except.ok.injEq,
                    Option.some.injEq] at h
                  rw [← h]

/-- C6 witness: resolving a CREATE record (a non-synthesis path) leaves
the input record unchanged. -/
theorem claim6_mutation_w :
    (resolveRun 0 0 rCreateBm (some rCreateBm)).post = rCreateBm :=
  (claim6_mutation 0 0 rCreateBm (some rCreateBm)).1 (by decide)

/-- Unfolding of withRetryF at fuel zero: throw previousError. -/
theorem withRetryF_zero {α : Type} (f : Nat → Except Err α) (k : Nat)
    (pe : Option Err) :
    withRetryF f k 0 pe =
      { outcome := Except.error pe, calls := 0, refreshes := 0 } := rfl

/-- Unfolding of withRetryF with no previous error and a failing
attempt. -/
theorem withRetryF_none_err {α : Type} (f : Nat → Except Err α)
    (k fuel : Nat) (e : Err) (h : f k = Except.error e) :
    withRetryF f k (fuel + 1) none =
      { outcome := (withRetryF f (k + 1) fuel (some e)).outcome,
        calls := (withRetryF f (k + 1) fuel (some e)).calls + 1,
        refreshes := (withRetryF f (k + 1) fuel (some e)).refreshes } := by
  simp [withRetryF, h]

/-- Unfolding of withRetryF with a previous non-credential error: the
error is rethrown at once, with no further attempt and no refresh. -/
theorem withRetryF_prev_noncred {α : Type} (f : Nat → Except Err α)
    (k fuel : Nat) (e : Err) (h : isExpiredCredentialError e = false) :
    withRetryF f k (fuel + 1) (some e) =
      { outcome := Except.error (some e), calls := 0, refreshes := 0 } := by
  simp [withRetryF, h]

/-- Unfolding of withRetryF with a previous credential error and a
failing attempt: refresh, attempt, recurse. -/
theorem withRetryF_prev_cred_err {α : Type} (f : Nat → Except Err α)
    (k fuel : Nat) (e e2 : Err) (hc : isExpiredCredentialError e = true)
    (h : f k = Except.error e2) :
    withRetryF f k (fuel + 1) (some e) =
      { outcome := (withRetryF f (k + 1) fuel (some e2)).outcome,
        calls := (withRetryF f (k + 1) fuel (some e2)).calls + 1,
        refreshes := (withRetryF f (k + 1) fuel (some e2)).refreshes
          + 1 } := by
  simp [withRetryF, hc, h]

/-- C7 counterexample: an operation whose first call fails with a
non-credential error and whose second call would succeed is not retried
under the default budget — withRetry makes exactly one attempt and fails
with that first error, although the budget had a retry left. -/
theorem claim7_cex :
    isExpiredCredentialError netErr = false ∧
    opNetOnce 1 = Except.ok () ∧
    withRetry opNetOnce 0 1 none =
      { outcome := Except.error (some netErr), calls := 1,
        refreshes := 0 } := by
  refine ⟨by decide, rfl, ?_⟩
  show withRetryF opNetOnce 0 (1 + 1) none = _
  rw [withRetryF_none_err opNetOnce 0 1 netErr rfl,
    withRetryF_prev_noncred opNetOnce 1 0 netErr (by decide)]

/-- C7 (amended): under the default budget, a first failure that is not
classified as an expired-credential error is not retried at all: the
recursive call rethrows it before invoking the operation again, so
withRetry fails with that error after exactly one attempt and no
credential refresh. -/
theorem claim7_noncredential {α : Type} (myFun : Nat → Except Err α)
    (k : Nat) (e : Err) (h1 : myFun k = Except.error e)
    (h2 : isExpiredCredentialError e = false) :
    withRetry myFun k 1 none =
      { outcome := Except.error (some e), calls := 1,
        refreshes := 0 } := by
  show withRetryF myFun k (1 + 1) none = _
  rw [withRetryF_none_err myFun k 1 e h1,
    withRetryF_prev_noncred myFun (k + 1) 0 e h2]

/-- C7 witness at the always-failing network operation. -/
theorem claim7_noncredential_w :
    withRetry opNetAll 2 1 none =
      { outcome := Except.error (some netErr), calls := 1,
        refreshes := 0 } :=
  claim7_noncredential opNetAll 2 netErr rfl (by decide)

/-- C8 counterexample: with the default budget and two distinct failures
(the first of the expired-credential class), withRetry finally fails
with the second attempt's error, not with the error captured from the
first failed attempt. -/
theorem claim8_cex :
    (withRetry opTwoFails 0 1 none).outcome =
      Except.error (some credErr2) ∧
    credErr1 ≠ credErr2 ∧
    (withRetry opTwoFails 0 1 none).outcome ≠
      Except.error (some credErr1) := by
  have hw : withRetry opTwoFails 0 1 none =
      { outcome := Except.error (some credErr2), calls := 2,
        refreshes := 1 } := by
    show withRetryF opTwoFails 0 (1 + 1) none = _
    rw [withRetryF_none_err opTwoFails 0 1 credErr1 rfl,
      withRetryF_prev_cred_err opTwoFails 1 0 credErr1 credErr2
        (by decide) rfl,
      withRetryF_zero]
  refine ⟨by rw [hw], by decide, ?_⟩
  rw [hw]
  simp [credErr1, credErr2]

/-- C8 (amended): when withRetry exhausts its budget, the error it
finally fails with is the one captured from the most recent failed
attempt (the previousError handed to the out-of-budget recursive call),
not the error of the first attempt: with budget one, a credential-class
first failure and any second failure, the call fails with the second
error after two attempts and one refresh. -/
theorem claim8_exhaustion {α : Type} (myFun : Nat → Except Err α)
    (k : Nat) (e1 e2 : Err) (h1 : myFun k = Except.error e1)
    (hc : isExpiredCredentialError e1 = true)
    (h2 : myFun (k + 1) = Except.error e2) :
    withRetry myFun k 1 none =
      { outcome := Except.error (some e2), calls := 2,
        refreshes := 1 } := by
  show withRetryF myFun k (1 + 1) none = _
  rw [withRetryF_none_err myFun k 1 e1 h1,
    withRetryF_prev_cred_err myFun (k + 1) 0 e1 e2 hc h2,
    withRetryF_zero]

/-- C8 witness at the concrete doubly-failing operation. -/
theorem claim8_exhaustion_w :
    withRetry opTwoFails 0 1 none =
      { outcome := Except.error (some credErr2), calls := 2,
        refreshes := 1 } :=
  claim8_exhaustion opTwoFails 0 credErr1 credErr2 rfl (by decide) rfl

/-- C9 counterexample: for a one-byte record, the single uploaded form
carries the payload in its key and an empty byte array in its file
field — the file field does not carry the chunk's payload bytes. -/
theorem claim9_cex :
    put "0" "userX" [("policy", "pol")] 100 "BOOKMARKS" [42] = [cform] ∧
    ("file", FormValue.bytes []) ∈ cform ∧
    ("file", FormValue.bytes [42]) ∉ cform := by
  refine ⟨by decide, by decide, by decide⟩

/-- C9 (amended): every form posted by put for a chunk contains a key
field holding that chunk's storage key (which itself encodes the chunk's
payload bytes), every form field supplied by the credential bundle's
postData, and a file field carrying an empty byte array — never the
chunk's payload bytes. -/
theorem claim9_upload_form (apiVersion userId category : String)
    (postData : List (String × String)) (nowSec : Nat)
    (record : List Nat) (form : List (String × FormValue))
    (hf : form ∈ put apiVersion userId postData nowSec category record) :
    (∃ key, key ∈ encodeDataToS3KeyArray
        (currentRecordKeyBase apiVersion userId category nowSec) record ∧
      form = s3PostFormData postData key ∧
      ("key", FormValue.str key) ∈ form) ∧
    (∀ nv, nv ∈ postData → (nv.1, FormValue.str nv.2) ∈ form) ∧
    ("file", FormValue.bytes []) ∈ form ∧
    (∀ p, ("file", FormValue.bytes p) ∈ form → p = []) := by
  unfold put at hf
  simp only [List.mem_map] at hf
  obtain ⟨key, hk, hform⟩ := hf
  subst hform
  refine ⟨⟨key, hk, rfl, ?_⟩, ?_, ?_, ?_⟩
  · simp [s3PostFormData]
  · intro nv hnv
    simp only [s3PostFormData, List.mem_cons, List.mem_append,
      List.mem_map]
    exact Or.inr (Or.inl ⟨nv, hnv, rfl⟩)
  · simp [s3PostFormData]
  · intro p hp
    simp [s3PostFormData] at hp
    exact hp

/-- C9 witness at the concrete one-chunk upload. -/
theorem claim9_upload_form_w :
    ("file", FormValue.bytes []) ∈ cform ∧
    ("policy", FormValue.str "pol") ∈ cform ∧
    ("key", FormValue.str "0/userX/BOOKMARKS/100/0/42") ∈ cform := by
  have h := claim9_upload_form "0" "userX" "BOOKMARKS"
    [("policy", "pol")] 100 [42] cform (by decide)
  exact ⟨h.2.2.1, h.2.1 ("policy", "pol") (by decide), by decide⟩

end SyncModel
